import Mathlib

/-!
Shallow embedding of the Croquette dictionary (src/src/croquette.c, src/inc/croquette.h).

Modelling conventions, fixed once for the whole file:

* Keys are C strings; we model them as `List Nat` of character ordinals (the
  bytes of the string, which are nonzero and, for the ASCII keys the library is
  written for, agree with C's signed `char` values).  `NULL`/empty keys are both
  modelled by `[]` (the source rejects `key == NULL || strlen(key) == 0` in the
  same branch).
* Values are C `void *`; we model them as `Int`, with `0` playing the role of
  `NULL` (as in C).
* C `int`/`long` fields (`size`, `capacity`, hash codes, error codes) are
  modelled as `Int`.  No claim in scope exercises 32/64-bit wraparound, and
  signed overflow is undefined behaviour in C, so the unbounded integers are
  the defined-behaviour semantics.  `capacity >> 1` on the nonnegative
  capacities becomes `/ 2`, `capacity << 1` becomes `* 2`.
* The caller-supplied callbacks: `value_compare` is stored as a real function
  `Int → Int → Int` (C convention: result `0` means the values are equal);
  `free_value` has no modelled effect other than being invoked, so the table
  stores only whether a non-NULL function pointer was supplied
  (`free_value_given`) and the global state records the trace of values passed
  to it (`released`).  Invoking a NULL function pointer is undefined
  behaviour; the model flags it in `crashed`.
* The single global `croquette` pointer plus the global `croquette_error` live
  in `GState`.  `crashed` is a ghost flag set when the source would hit
  undefined behaviour (NULL function-pointer call, out-of-bounds table access)
  and also when an execution runs out of fuel (the source's
  `croquette_put`/`rehash`/`perform_rehash` recursion is modelled with fuel).
  Once set it is never cleared, so a `crashed = false` result is a faithful,
  fully-defined run of the C code.
* The doubly linked chains are modelled as Lean lists in chain order (head of
  the list = head of the chain); `insert_at_index` appends at the tail exactly
  as the source walks `walker->next` to the tail.
-/

namespace Croquette

/-- MAX_KEY_SIZE from croquette.h: maximum characters per key. -/
def MAX_KEY_SIZE : Nat := 255

/-- CROQUETTE_DEFAULT_INITIAL_SIZE from croquette.h. -/
def CROQUETTE_DEFAULT_INITIAL_SIZE : Int := 11

/-- Return code: D_Error. -/
def D_Error : Int := -1

/-- Return code: D_Success. -/
def D_Success : Int := 0

/-- Croquette_Action_e: insert operation tag passed to rehash. -/
def D_Insert : Int := 0

/-- Croquette_Action_e: remove operation tag passed to rehash. -/
def D_Remove : Int := 1

/-- croquette_clear_options: do not free the value on removal. -/
def Croquette_NoFree_Value : Int := 0

/-- croquette_clear_options: free the value on removal. -/
def Croquette_Free_Value : Int := 1

/-- croquette_dofree: the do_free configuration value meaning "free values". -/
def D_Do_Free : Int := 1

/-- Error code 0: no error. -/
def D_No_Error : Int := 0

/-- Error code: unspecified error (also the value get_index returns on failure). -/
def D_General_Error : Int := 1

/-- Error code: the croquette was not initialized. -/
def D_Uninitialized : Int := 2

/-- Error code: unknown error. -/
def D_Unknown_Error : Int := 3

/-- Error code: invalid key. -/
def D_Invalid_Key : Int := 4

/-- Error code: NULL entry. -/
def D_Entry_NULL : Int := 5

/-- Error code: invalid capacity. -/
def D_Invalid_Capacity : Int := 6

/-- Error code: invalid index. -/
def D_Invalid_Index : Int := 7

/-- Error code: invalid value. -/
def D_No_Value : Int := 8

/-- Error code: allocation failure. -/
def D_Insufficient_Memory : Int := 9

/-- Error code: free_value function missing. -/
def D_FreeValue_Missing : Int := 10

/-- Error code: value_compare function missing. -/
def D_ValueCompare_Missing : Int := 11

/-- Error code: croquette already exists. -/
def D_Exists : Int := 12

/-- Error code: no such error. -/
def D_No_Such_Error : Int := 13

/-- Error code: number of errors (largest valid code). -/
def D_Num_Errors : Int := 14

/-- Carrier_s: one chain node, holding the stored (truncated) key and the value. -/
structure Carrier where
  key : List Nat
  value : Int
deriving DecidableEq, Repr

/-- Croquette_s: the dictionary structure.  `table` is the bucket vector
(length = `capacity` in every state the source can construct); `value_compare`
is the caller-supplied comparison; `free_value_given` records whether a
non-NULL `free_value` function pointer was supplied at creation. -/
structure Croquette_s where
  do_free : Int
  size : Int
  capacity : Int
  base_capacity : Int
  table : List (List Carrier)
  free_value_given : Bool
  value_compare : Int → Int → Int

/-- The global state: the `croquette` singleton pointer (`none` = NULL), the
`croquette_error` global, the ghost trace of values passed to `free_value`,
and the ghost undefined-behaviour/out-of-fuel flag. -/
structure GState where
  croq : Option Croquette_s
  err : Int
  released : List Int
  crashed : Bool

/-- croquette_set_error.  The source first writes `D_No_Such_Error` when the
code is out of range, but the assignment is not in an `else`, so the raw code
is stored verbatim in every case:

    if(error < 0 || error > D_Num_Errors) { croquette_error = D_No_Such_Error; }
    croquette_error = error;
-/
def croquette_set_error (error : Int) (g : GState) : GState :=
  let g1 := if error < 0 ∨ error > D_Num_Errors then { g with err := D_No_Such_Error } else g
  { g1 with err := error }

/-- croquette_get_error: returns the current croquette_error. -/
def croquette_get_error (g : GState) : Int :=
  g.err

/-- hash_code: `long code = 0;` then

    for(i = 0; i < size; i++) {
      code += key[i];
      if(size == 1 || i < (size - 1)) { code <<= 7; }
    }

rendered as a fold of the loop body over the index range `0 .. size-1`. -/
def hash_code (key : List Nat) : Int :=
  let size := key.length
  (List.range size).foldl
    (fun code i =>
      let code1 := code + (key.getD i 0 : Int)
      if size = 1 ∨ i < size - 1 then code1 * 128 else code1)
    0

/-- is_key: `!strncmp(entry->key, key, MAX_KEY_SIZE)` — the stored key and the
probe agree on their first MAX_KEY_SIZE characters (for NUL-free byte strings,
`strncmp(a, b, n) == 0` is exactly equality of the length-`n` prefixes). -/
def is_key (entry : Carrier) (key : List Nat) : Bool :=
  entry.key.take MAX_KEY_SIZE = key.take MAX_KEY_SIZE

/-- carrier_create: allocates a node and copies the key truncated to
`min(MAX_KEY_SIZE, strlen(key)+1)` bytes via strncpy, which stores exactly the
first `min(MAX_KEY_SIZE, strlen(key))` characters of the key.  Allocation
never fails in the model.  The source resets the error tracker on entry. -/
def carrier_create (g : GState) (key : List Nat) (value : Int) : GState × Carrier :=
  (croquette_set_error D_No_Error g,
   { key := key.take MAX_KEY_SIZE, value := value })

/-- get_index: validates the global and the key, then returns
`hash_code(key) % croquette->capacity` (C's truncating `%`, `Int.tmod`).
On failure the source returns `D_General_Error` (not `D_Error`). -/
def get_index (g : GState) (key : List Nat) : GState × Int :=
  let g := croquette_set_error D_No_Error g
  match g.croq with
  | none => (croquette_set_error D_Uninitialized g, D_General_Error)
  | some c =>
    if key = [] then
      (croquette_set_error D_Invalid_Key g, D_General_Error)
    else
      (g, Int.tmod (hash_code key) c.capacity)

/-- free_value invocation: the observable effect is the ghost trace; calling a
NULL function pointer is undefined behaviour. -/
def free_value_call (g : GState) (v : Int) : GState :=
  match g.croq with
  | some c =>
    if c.free_value_given then { g with released := v :: g.released }
    else { g with crashed := true }
  | none => { g with crashed := true }

/-- free_entry: frees the value only when `croquette->do_free == D_Do_Free`
(the key and node frees have no observable counterpart in the model). -/
def free_entry (g : GState) (entry : Carrier) : GState :=
  match g.croq with
  | some c =>
    if c.do_free = D_Do_Free then free_value_call g entry.value else g
  | none => g

/-- Chain update used by the croquette_put update path: the source writes
`entry->value = value` on the node croquette_find returned, i.e. the first
node of the chain whose key matches. -/
def chain_update_value (key : List Nat) (value : Int) : List Carrier → List Carrier
  | [] => []
  | e :: es =>
    if is_key e key then { e with value := value } :: es
    else e :: chain_update_value key value es

/-- Chain unlink used by remove_entry: the source bridges the doubly linked
list around the node, which in the list model removes the first node whose
key matches. -/
def chain_remove (key : List Nat) : List Carrier → List Carrier
  | [] => []
  | e :: es => if is_key e key then es else e :: chain_remove key es

/-- insert_at_index: bounds check (note the source accepts `index == capacity`:
the test is `index < 0 || index > croquette->capacity`), then appends the
entry at the tail of the chain and increments size.  An access past the end of
the bucket vector is undefined behaviour, flagged by `crashed`. -/
def insert_at_index (g : GState) (index : Int) (entry : Carrier) : GState × Int :=
  let g := croquette_set_error D_No_Error g
  match g.croq with
  | none => (croquette_set_error D_Uninitialized g, D_Error)
  | some c =>
    if index < 0 ∨ index > c.capacity then
      (croquette_set_error D_Invalid_Index g, D_Error)
    else
      if index.toNat < c.table.length then
        let chain := c.table.getD index.toNat []
        ({ g with croq := some { c with
              table := c.table.set index.toNat (chain ++ [entry]),
              size := c.size + 1 } },
         D_Success)
      else
        -- croquette->table[index] with index at or past the end of the vector
        ({ g with croq := some { c with size := c.size + 1 }, crashed := true },
         D_Success)

/-- croquette_find: validates, computes the bucket index, and walks the chain
for the first node with a matching key.  The source compares the index against
`D_Error` although get_index signals failure with `D_General_Error`; the
comparison is translated as written (it is unreachable from the public API). -/
def croquette_find (g : GState) (key : List Nat) : GState × Option Carrier :=
  let g := croquette_set_error D_No_Error g
  match g.croq with
  | none => (croquette_set_error D_Uninitialized g, none)
  | some c =>
    if key = [] then
      (croquette_set_error D_Invalid_Key g, none)
    else
      let p := get_index g key
      let g := p.1
      let index := p.2
      if index = D_Error then
        (g, none)
      else
        (g, (c.table.getD index.toNat []).find? (fun walker => is_key walker key))

/-- The requests handled by the recursive core of the source:
croquette_put, rehash, perform_rehash, and perform_rehash's two nested
reinsertion loops.  These five are mutually recursive in the C code
(perform_rehash re-puts every entry through croquette_put, which may trigger
rehash again); the model runs them in a single interpreter, `exec`,
structurally recursive on fuel. -/
inductive Req where
  | put : List Nat → Int → Req
  | rehash : Int → Req
  | performRehash : Int → Req

/-- The inner loop of perform_rehash over one old chain (`next` performs the
call into the recursive core):

    croquette_put(walker->key, walker->value);
    walker = walker->next;
    reaper->value = NULL;
    free_entry(reaper);
-/
def reinsert_chain (next : Req → GState → GState × Int) :
    List Carrier → GState → GState
  | [], g => g
  | entry :: rest, g =>
    let p := next (Req.put entry.key entry.value) g
    let g2 := free_entry p.1 { entry with value := 0 }
    reinsert_chain next rest g2

/-- The outer loop of perform_rehash over the old bucket vector. -/
def reinsert_all (next : Req → GState → GState × Int) :
    List (List Carrier) → GState → GState
  | [], g => g
  | chain :: rest, g => reinsert_all next rest (reinsert_chain next chain g)

/-- The recursive core.  Each `Req` case is the direct translation of the
corresponding C function:

* `put key value` — croquette_put: validate, try the update path on an
  existing entry (comparing values with `value_compare`, and — as the source
  does — calling `free_value` without consulting `do_free` when they differ),
  otherwise create a carrier, insert it at its bucket index and evaluate the
  rehash policy.  In the update path the source mutates the node
  croquette_find returned in place; that node is the first matching node of
  the chain at `hash_code(key) % capacity`, which is where
  `chain_update_value` writes.
* `rehash operation` — rehash: grow to `capacity << 1` on D_Insert when
  `size > (capacity>>1) + (capacity>>2)` or `size >= capacity`; shrink to
  `capacity >> 1` on D_Remove when `size < (capacity>>1)`.  The source
  dereferences `croquette` without a NULL check here; the model flags that
  (unreachable) path as a crash.
* `performRehash new_capacity` — perform_rehash: allocate the new bucket
  vector, swap it in with the new capacity and size 0, then walk every chain
  of the old vector (`reinsertAll`/`reinsertChain`), re-putting each entry
  through croquette_put and freeing the old node with its value pointer cut
  to NULL first.

One unit of fuel pays for each step into the recursion (a call from one of
the five into another); exhausted fuel sets `crashed`, so a `crashed = false`
result never depended on the fuel bound.  Each former function becomes a
non-recursive body parameterized by the continuation `next` used for its
calls into the core; `exec` ties the knot, peeling one unit of fuel per
step. -/
def croquette_put_body (next : Req → GState → GState × Int)
    (key : List Nat) (value : Int) (g : GState) : GState × Int :=
  let g := croquette_set_error D_No_Error g
  match g.croq with
  | none => (croquette_set_error D_Uninitialized g, D_Error)
  | some _ =>
    if key = [] then
      (croquette_set_error D_Invalid_Key g, D_Error)
    else
      let fr := croquette_find g key
      match fr.2 with
      | some entry =>
        match fr.1.croq with
        | some c =>
          if c.value_compare entry.value value ≠ 0 then
            -- croquette->free_value(entry->value); entry->value = value;
            let g2 := free_value_call fr.1 entry.value
            let idx := (Int.tmod (hash_code key) c.capacity).toNat
            ({ g2 with croq := some { c with
                  table := c.table.set idx
                    (chain_update_value key value (c.table.getD idx [])) } },
             D_Success)
          else
            (fr.1, D_Success)
        | none =>
          -- croquette vanished between the NULL check and the update: unreachable
          ({ fr.1 with crashed := true }, D_Error)
      | none =>
        let p1 := carrier_create fr.1 key value
        let p2 := get_index p1.1 p1.2.key
        if p2.2 = D_Error then
          (p2.1, D_Error)
        else
          let p3 := insert_at_index p2.1 p2.2 p1.2
          let p4 := next (Req.rehash D_Insert) p3.1
          if p4.2 = D_Error then (p4.1, D_Error) else (p4.1, D_Success)

/-- The body of rehash (see the core's documentation above). -/
def rehash_body (next : Req → GState → GState × Int)
    (operation : Int) (g : GState) : GState × Int :=
  let g := croquette_set_error D_No_Error g
  match g.croq with
  | none => ({ g with crashed := true }, D_Error)
  | some c =>
    if operation = D_Insert then
      if c.size > c.capacity / 2 + c.capacity / 4 ∨ c.size ≥ c.capacity then
        let s := next (Req.performRehash (c.capacity * 2)) g
        if s.2 = D_Error then (s.1, D_Error) else (s.1, D_Success)
      else (g, D_Success)
    else if operation = D_Remove then
      if c.size < c.capacity / 2 then
        let s := next (Req.performRehash (c.capacity / 2)) g
        if s.2 = D_Error then (s.1, D_Error) else (s.1, D_Success)
      else (g, D_Success)
    else (g, D_Success)

/-- The body of perform_rehash (see the core's documentation above). -/
def perform_rehash_body (next : Req → GState → GState × Int)
    (new_capacity : Int) (g : GState) : GState × Int :=
  let g := croquette_set_error D_No_Error g
  match g.croq with
  | none => (croquette_set_error D_Uninitialized g, D_Error)
  | some c =>
    if new_capacity ≤ 0 then
      (croquette_set_error D_Invalid_Capacity g, D_Error)
    else
      let old_sable := c.table
      let g := { g with croq := some { c with
          table := List.replicate new_capacity.toNat [],
          capacity := new_capacity,
          size := 0 } }
      (reinsert_all next old_sable g, D_Success)

/-- Exhausted fuel: the model gives up and flags the run. -/
def exec_out_of_fuel : Req → GState → GState × Int :=
  fun _ g => ({ g with crashed := true }, D_Error)

/-- One step of the recursive core: dispatch a request to the corresponding
body, with `next` used for that body's calls back into the core. -/
def exec_step (next : Req → GState → GState × Int) : Req → GState → GState × Int :=
  fun req g =>
    match req with
    | Req.put key value => croquette_put_body next key value g
    | Req.rehash operation => rehash_body next operation g
    | Req.performRehash new_capacity => perform_rehash_body next new_capacity g

/-- The recursive core: iterate `exec_step`, one unit of fuel per step. -/
def exec : Nat → Req → GState → GState × Int
  | 0 => exec_out_of_fuel
  | fuel + 1 => exec_step (exec fuel)

/-- croquette_put, as a request to the recursive core. -/
def croquette_put (fuel : Nat) (g : GState) (key : List Nat) (value : Int) : GState × Int :=
  exec fuel (Req.put key value) g

/-- rehash, as a request to the recursive core. -/
def rehash (fuel : Nat) (g : GState) (operation : Int) : GState × Int :=
  exec fuel (Req.rehash operation) g

/-- perform_rehash, as a request to the recursive core. -/
def perform_rehash (fuel : Nat) (g : GState) (new_capacity : Int) : GState × Int :=
  exec fuel (Req.performRehash new_capacity) g

/-- croquette_create: single-instance check, default capacity substitution for
non-positive requests, capability checks, then allocation and initialization.
`free_value_nonnull` / `value_compare` model whether the corresponding
function pointers are non-NULL (`value_compare` carries the function itself). -/
def croquette_create (g : GState) (initial_capacity : Int) (do_free : Int)
    (free_value_nonnull : Bool) (value_compare : Option (Int → Int → Int)) :
    GState × Int :=
  let g := croquette_set_error D_No_Error g
  match g.croq with
  | some _ => (croquette_set_error D_Exists g, D_Error)
  | none =>
    let initial_capacity :=
      if initial_capacity ≤ 0 then CROQUETTE_DEFAULT_INITIAL_SIZE else initial_capacity
    if do_free = Croquette_Free_Value ∧ free_value_nonnull = false then
      (croquette_set_error D_FreeValue_Missing g, D_Error)
    else
      match value_compare with
      | none => (croquette_set_error D_ValueCompare_Missing g, D_Error)
      | some cmp =>
        ({ g with croq := some {
              do_free := do_free,
              size := 0,
              capacity := initial_capacity,
              base_capacity := initial_capacity,
              table := List.replicate initial_capacity.toNat [],
              free_value_given := free_value_nonnull,
              value_compare := cmp } },
         D_Success)

/-- croquette_isEmpty: 1 if empty, 0 if not, D_Error when uninitialized. -/
def croquette_isEmpty (g : GState) : GState × Int :=
  let g := croquette_set_error D_No_Error g
  match g.croq with
  | none => (croquette_set_error D_Uninitialized g, D_Error)
  | some c => (g, if c.size = 0 then 1 else 0)

/-- croquette_size: the number of entries, D_Error when uninitialized. -/
def croquette_size (g : GState) : GState × Int :=
  let g := croquette_set_error D_No_Error g
  match g.croq with
  | none => (croquette_set_error D_Uninitialized g, D_Error)
  | some c => (g, c.size)

/-- croquette_capacity: the number of buckets, D_Error when uninitialized. -/
def croquette_capacity (g : GState) : GState × Int :=
  let g := croquette_set_error D_No_Error g
  match g.croq with
  | none => (croquette_set_error D_Uninitialized g, D_Error)
  | some c => (g, c.capacity)

/-- croquette_containsKey: validates, then reports `croquette_find(key) != NULL`
(1 for true, 0 for false, D_Error on failed preconditions). -/
def croquette_containsKey (g : GState) (key : List Nat) : GState × Int :=
  let g := croquette_set_error D_No_Error g
  match g.croq with
  | none => (croquette_set_error D_Uninitialized g, D_Error)
  | some _ =>
    if key = [] then
      (croquette_set_error D_Invalid_Key g, D_Error)
    else
      let fr := croquette_find g key
      (fr.1, if fr.2.isSome then 1 else 0)

/-- croquette_get: validates, then returns the stored value pointer or NULL
(modelled by 0). -/
def croquette_get (g : GState) (key : List Nat) : GState × Int :=
  let g := croquette_set_error D_No_Error g
  match g.croq with
  | none => (croquette_set_error D_Uninitialized g, 0)
  | some _ =>
    if key = [] then
      (croquette_set_error D_Invalid_Key g, 0)
    else
      let fr := croquette_find g key
      match fr.2 with
      | some entry => (fr.1, entry.value)
      | none => (fr.1, 0)

/-- remove_entry: recompute the entry's bucket from its stored key, bridge the
chain around the node, free it (value freed only under do_free) and decrement
size.  The NULL-entry guard of the source is vacuous in the model, which only
passes real entries. -/
def remove_entry (g : GState) (entry : Carrier) : GState × Int :=
  let g := croquette_set_error D_No_Error g
  let p := get_index g entry.key
  let g := p.1
  match g.croq with
  | none => ({ g with crashed := true }, D_Error)
  | some c =>
    let idx := p.2.toNat
    let g := { g with croq := some { c with
        table := c.table.set idx (chain_remove entry.key (c.table.getD idx [])) } }
    let g := free_entry g entry
    match g.croq with
    | none => ({ g with crashed := true }, D_Error)
    | some c2 => ({ g with croq := some { c2 with size := c2.size - 1 } }, D_Success)

/-- croquette_remove: validate; a missing key is a success with no effect;
otherwise remove the entry and evaluate the shrink policy. -/
def croquette_remove (fuel : Nat) (g : GState) (key : List Nat) : GState × Int :=
  let g := croquette_set_error D_No_Error g
  match g.croq with
  | none => (croquette_set_error D_Uninitialized g, D_Error)
  | some _ =>
    if key = [] then
      (croquette_set_error D_Invalid_Key g, D_Error)
    else
      let fr := croquette_find g key
      match fr.2 with
      | none => (fr.1, D_Success)
      | some entry =>
        let r := remove_entry fr.1 entry
        let s := rehash fuel r.1 D_Remove
        if s.2 = D_Error then (s.1, D_Error) else (s.1, D_Success)

/-- The inner loop of croquette_clear over one bucket: remove_entry on every
node of the chain (walking saved next pointers, as the source does). -/
def clear_chain (g : GState) (chain : List Carrier) : GState :=
  match chain with
  | [] => g
  | entry :: rest => clear_chain (remove_entry g entry).1 rest

/-- The outer loop of croquette_clear over all bucket indices
`i = 0 .. capacity-1`: clear the chain at index i, then `table[i] = NULL`. -/
def clear_buckets (g : GState) (indices : List Nat) : GState :=
  match indices with
  | [] => g
  | i :: rest =>
    match g.croq with
    | none => clear_buckets g rest
    | some c =>
      let g := clear_chain g (c.table.getD i [])
      let g :=
        match g.croq with
        | none => g
        | some c2 => { g with croq := some { c2 with table := c2.table.set i [] } }
      clear_buckets g rest

/-- croquette_clear: remove and free every entry of every bucket, then
perform_rehash back to base_capacity. -/
def croquette_clear (fuel : Nat) (g : GState) : GState × Int :=
  let g := croquette_set_error D_No_Error g
  match g.croq with
  | none => (croquette_set_error D_Uninitialized g, D_Error)
  | some c =>
    let g := clear_buckets g (List.range c.capacity.toNat)
    match g.croq with
    | none => ({ g with crashed := true }, D_Error)
    | some c2 => perform_rehash fuel g c2.base_capacity

/-- croquette_destroy: clear (aborting silently on a clear failure), then free
the table and the structure, returning to the uninitialized state. -/
def croquette_destroy (fuel : Nat) (g : GState) : GState :=
  match g.croq with
  | none => g
  | some _ =>
    let r := croquette_clear fuel g
    if r.2 = D_Error then r.1
    else
      match r.1.croq with
      | none => r.1
      | some _ => { r.1 with croq := none }

/-!
The specification-side description of the hash (for the refinement claim
about hashing).  This follows the spec's words, not the source: accumulate
each character's ordinal into a running total, left-shifting the accumulator
by 7 bits after every character except the last; a single-character key is
still shifted once.
-/

/-- Spec wording, accumulation step: add each character, shifting by 7 bits
after every character except the last. -/
def spec_hash_go (acc : Int) : List Nat → Int
  | [] => acc
  | [c] => acc + c
  | c :: c2 :: rest => spec_hash_go ((acc + c) * 128) (c2 :: rest)

/-- Spec wording, whole hash: the accumulation above, except that a
single-character key is still shifted once. -/
def spec_hash : List Nat → Int
  | [] => 0
  | [c] => ((0 : Int) + c) * 128
  | c :: c2 :: rest => spec_hash_go 0 (c :: c2 :: rest)

/-!
Concrete scenario states used by the claims.  Every scenario starts from the
program's initial state (no table, `croquette_error = 0`) and is driven
exclusively through the public operations; the `*_eq` theorems below prove
each step's exact result.
-/

/-- The program's initial global state: `croquette = NULL`, no error. -/
def initial_gstate : GState :=
  { croq := none, err := D_No_Error, released := [], crashed := false }

/-- A concrete caller-supplied value comparison (same contract as the test
suite's compare_elem): 0 iff equal. -/
def value_sub : Int → Int → Int := fun v1 v2 => v1 - v2

/-- Helper for writing expected states: a table created with capacity 1 and
ownership disabled, whose entries (single-character keys) all hash to
bucket 0 at every power-of-two capacity. -/
def state_b0 (size capacity : Int) (chain : List Carrier) : GState :=
  { croq := some
      { do_free := 0, size := size, capacity := capacity, base_capacity := 1,
        table := chain :: List.replicate (capacity.toNat - 1) [],
        free_value_given := true, value_compare := value_sub },
    err := 0, released := [], crashed := false }

/-- Single-character-key chains, in insertion order. -/
def chain_of (ks : List Nat) : List Carrier :=
  ks.map fun k => { key := [k], value := (k : Int) }

/-- C3/C2 growth chain: create with capacity 1, then seven (plus one more)
successful puts of distinct single-character keys. -/
def t0 : GState := (croquette_create initial_gstate 1 Croquette_NoFree_Value true (some value_sub)).1

/-- First insert of the growth chain. -/
def t1r : GState × Int := croquette_put 20 t0 [97] 97

/-- State after the first insert. -/
def t1 : GState := t1r.1

/-- Second insert of the growth chain. -/
def t2r : GState × Int := croquette_put 20 t1 [98] 98

/-- State after the second insert. -/
def t2 : GState := t2r.1

/-- Third insert of the growth chain. -/
def t3r : GState × Int := croquette_put 20 t2 [99] 99

/-- State after the third insert. -/
def t3 : GState := t3r.1

/-- Fourth insert of the growth chain. -/
def t4r : GState × Int := croquette_put 20 t3 [100] 100

/-- State after the fourth insert. -/
def t4 : GState := t4r.1

/-- Fifth insert of the growth chain. -/
def t5r : GState × Int := croquette_put 20 t4 [101] 101

/-- State after the fifth insert. -/
def t5 : GState := t5r.1

/-- Sixth insert of the growth chain. -/
def t6r : GState × Int := croquette_put 20 t5 [102] 102

/-- State after the sixth insert. -/
def t6 : GState := t6r.1

/-- Seventh insert of the growth chain. -/
def t7r : GState × Int := croquette_put 20 t6 [103] 103

/-- State after the seventh insert. -/
def t7 : GState := t7r.1

/-- C1 update-path scenario: a table created with ownership DISABLED
(do_free = Croquette_NoFree_Value) but a non-NULL free_value supplied,
holding the single entry "a" -> 21. -/
def c1_table : GState :=
  (croquette_put 20 (croquette_create initial_gstate 2 Croquette_NoFree_Value true
      (some value_sub)).1 [97] 21).1

/-- C1: put of a different value (comparator 21 vs 22 is nonzero) on the
existing key. -/
def c1_update : GState × Int := croquette_put 20 c1_table [97] 22

/-- C1: put of a comparator-equal value on the existing key. -/
def c1_equal : GState × Int := croquette_put 20 c1_update.1 [97] 22

/-- C1 crash variant: same scenario but free_value = NULL, exactly as
croquette_create's own documentation directs for do_free = NoFree. -/
def c1_nofn_table : GState :=
  (croquette_put 20 (croquette_create initial_gstate 2 Croquette_NoFree_Value false
      (some value_sub)).1 [97] 21).1

/-- C1 crash variant: the update put, which calls the NULL free_value. -/
def c1_nofn_update : GState × Int := croquette_put 20 c1_nofn_table [97] 22

/-- Expected-state helper for the capacity-6 scenarios (C2): base capacity 6,
ownership disabled. -/
def state6 (size capacity : Int) (table : List (List Carrier)) : GState :=
  { croq := some
      { do_free := 0, size := size, capacity := capacity, base_capacity := 6,
        table := table, free_value_given := true, value_compare := value_sub },
    err := 0, released := [], crashed := false }

/-- C2 shrink scenario: create with capacity 6 and put keys "a", "b", "c"
(buckets 2, 4, 0). -/
def c2_v3 : GState :=
  (croquette_put 20 (croquette_put 20 (croquette_put 20
      (croquette_create initial_gstate 6 Croquette_NoFree_Value true (some value_sub)).1
      [97] 97).1 [98] 98).1 [99] 99).1

/-- C2: the removal that leaves size 2 < (6 >> 1), triggering the shrink. -/
def c2_removed : GState × Int := croquette_remove 20 c2_v3 [97]

/-- C2, intermediate: the table right after remove_entry("a"), before the
shrink rehash. -/
def c2_s1 : GState :=
  state6 2 6 [[{ key := [99], value := 99 }], [], [], [], [{ key := [98], value := 98 }], []]

/-- C2, intermediate: the fresh capacity-3 table perform_rehash(3) swaps in. -/
def c2_e3 : GState := state6 0 3 [[], [], []]

/-- C2, intermediate: after reinserting "c" into the capacity-3 table. -/
def c2_a1 : GState := state6 1 3 [[{ key := [99], value := 99 }], [], []]

/-- C2, final: reinserting "b" crosses the 75% threshold of capacity 3, so
the shrink's reinsertion immediately doubles back to capacity 6. -/
def c2_a2 : GState :=
  state6 2 6 [[{ key := [99], value := 99 }], [], [], [], [{ key := [98], value := 98 }], []]

/-- Expected-state helper for the claim C2 positive example (capacity 8,
base capacity 8, all single-character keys in bucket 0). -/
def state8 (size capacity : Int) (chain : List Carrier) : GState :=
  { croq := some
      { do_free := 0, size := size, capacity := capacity, base_capacity := 8,
        table := chain :: List.replicate (capacity.toNat - 1) [],
        free_value_given := true, value_compare := value_sub },
    err := 0, released := [], crashed := false }

/-- C2 positive example: a table of size 5, capacity 8 (five single-character
keys, all in bucket 0), as in the spec's P2. -/
def c2_p0 : GState := state8 5 8 (chain_of [97, 98, 99, 100, 101])

/-- C2 positive example: first removal, size 4, no shrink. -/
def c2_p1 : GState × Int := croquette_remove 20 c2_p0 [97]

/-- C2 positive example: second removal, size 3 < (8 >> 1): shrink to 4. -/
def c2_p2 : GState × Int := croquette_remove 20 c2_p1.1 [98]

/-- C9 scenario: a live table with capacity 1 (bucket vector of length 1). -/
def c9_state : GState :=
  { croq := some
      { do_free := 0, size := 0, capacity := 1, base_capacity := 1,
        table := [[]], free_value_given := true, value_compare := value_sub },
    err := 0, released := [], crashed := false }

/-- C9: an entry to insert. -/
def c9_entry : Carrier := { key := [97], value := 5 }

/-- C6/C8 long keys: 255 repetitions of "a". -/
def kA : List Nat := List.replicate 255 97

/-- C6/C8: kA followed by "b" — agrees with k2 on the first 255 characters. -/
def k1 : List Nat := kA ++ [98]

/-- C6/C8: kA followed by "c" — agrees with k1 on the first 255 characters. -/
def k2 : List Nat := kA ++ [99]

/-- C6/C8 long-key scenario: a table created with capacity 4. -/
def u0 : GState :=
  (croquette_create initial_gstate 4 Croquette_NoFree_Value true (some value_sub)).1

/-- C6/C8: put of the 256-character key k1. -/
def u1r : GState × Int := croquette_put 10 u0 k1 21

/-- State after putting k1. -/
def u1 : GState := u1r.1

/-- C8: put of k2, which agrees with k1 (and with the stored, truncated key)
on the first 255 characters. -/
def u2r : GState × Int := croquette_put 10 u1 k2 22

/-- State after putting k2. -/
def u2 : GState := u2r.1

/-- Expected-state helper for the long-key scenario: capacity 4, the only
nonempty bucket being bucket 1 (the bucket of the truncated stored key). -/
def ustate (size : Int) (b1 : List Carrier) : GState :=
  { croq := some
      { do_free := 0, size := size, capacity := 4, base_capacity := 4,
        table := [[], b1, [], []], free_value_given := true, value_compare := value_sub },
    err := 0, released := [], crashed := false }

/-- C4 witness scenario: a small table (capacity 2 after growth, base
capacity 1) holding one entry. -/
def c4w_state : GState := state_b0 1 2 (chain_of [97])

/-- C5 witness scenario: a live table with capacity 3. -/
def c5_state : GState :=
  { croq := some
      { do_free := 0, size := 0, capacity := 3, base_capacity := 3,
        table := [[], [], []], free_value_given := true, value_compare := value_sub },
    err := 0, released := [], crashed := false }

/-!
Theorems.  First, unfolding equations for the reinsertion loops, and the
step-by-step evaluation of each concrete scenario (each step is one public
operation applied to an explicitly written state).
-/

/-- Reinsertion loop: an exhausted bucket vector. -/
theorem reinsert_all_nil (next : Req → GState → GState × Int) (g : GState) :
    reinsert_all next [] g = g := rfl

/-- Reinsertion loop: one bucket of the old vector. -/
theorem reinsert_all_cons (next : Req → GState → GState × Int)
    (chain : List Carrier) (rest : List (List Carrier)) (g : GState) :
    reinsert_all next (chain :: rest) g =
      reinsert_all next rest (reinsert_chain next chain g) := rfl

/-- Reinsertion loop: an empty bucket is skipped. -/
theorem reinsert_all_nil_bucket (next : Req → GState → GState × Int)
    (rest : List (List Carrier)) (g : GState) :
    reinsert_all next ([] :: rest) g = reinsert_all next rest g := rfl

/-- Chain reinsertion: an exhausted chain. -/
theorem reinsert_chain_nil (next : Req → GState → GState × Int) (g : GState) :
    reinsert_chain next [] g = g := rfl

/-- Chain reinsertion: one node — re-put the key and value, then free the
old node with its value pointer cut to NULL. -/
theorem reinsert_chain_cons (next : Req → GState → GState × Int)
    (k : List Nat) (v : Int) (es : List Carrier) (g : GState) :
    reinsert_chain next ({ key := k, value := v } :: es) g =
      reinsert_chain next es
        (free_entry (next (Req.put k v) g).1 { key := k, value := 0 }) := rfl

/-- Growth chain, step 0: croquette_create(1) yields an empty table of
capacity 1 and base capacity 1. -/
theorem t0_eq : t0 = state_b0 0 1 [] := rfl

/-- Growth chain, step 1: put("a") grows 1 → 2, giving (size, capacity) = (1, 2). -/
theorem t1r_eq : t1r = (state_b0 1 2 (chain_of [97]), D_Success) := by
  show croquette_put 20 t0 [97] 97 = _
  rw [t0_eq]
  rfl

/-- State after step 1. -/
theorem t1_eq : t1 = state_b0 1 2 (chain_of [97]) := by
  show t1r.1 = _
  rw [t1r_eq]

/-- Growth chain, step 2: put("b") grows 2 → 4, giving (2, 4). -/
theorem t2r_eq : t2r = (state_b0 2 4 (chain_of [97, 98]), D_Success) := by
  show croquette_put 20 t1 [98] 98 = _
  rw [t1_eq]
  rfl

/-- State after step 2. -/
theorem t2_eq : t2 = state_b0 2 4 (chain_of [97, 98]) := by
  show t2r.1 = _
  rw [t2r_eq]

/-- Growth chain, step 3: put("c") does not grow, giving (3, 4). -/
theorem t3r_eq : t3r = (state_b0 3 4 (chain_of [97, 98, 99]), D_Success) := by
  show croquette_put 20 t2 [99] 99 = _
  rw [t2_eq]
  rfl

/-- State after step 3. -/
theorem t3_eq : t3 = state_b0 3 4 (chain_of [97, 98, 99]) := by
  show t3r.1 = _
  rw [t3r_eq]

/-- Growth chain, step 4: put("d") grows 4 → 8, giving (4, 8). -/
theorem t4r_eq : t4r = (state_b0 4 8 (chain_of [97, 98, 99, 100]), D_Success) := by
  show croquette_put 20 t3 [100] 100 = _
  rw [t3_eq]
  rfl

/-- State after step 4. -/
theorem t4_eq : t4 = state_b0 4 8 (chain_of [97, 98, 99, 100]) := by
  show t4r.1 = _
  rw [t4r_eq]

/-- Growth chain, step 5: put("e") does not grow, giving (5, 8). -/
theorem t5r_eq : t5r = (state_b0 5 8 (chain_of [97, 98, 99, 100, 101]), D_Success) := by
  show croquette_put 20 t4 [101] 101 = _
  rw [t4_eq]
  rfl

/-- State after step 5. -/
theorem t5_eq : t5 = state_b0 5 8 (chain_of [97, 98, 99, 100, 101]) := by
  show t5r.1 = _
  rw [t5r_eq]

/-- Growth chain, step 6: put("f") does not grow, giving (6, 8). -/
theorem t6r_eq : t6r = (state_b0 6 8 (chain_of [97, 98, 99, 100, 101, 102]), D_Success) := by
  show croquette_put 20 t5 [102] 102 = _
  rw [t5_eq]
  rfl

/-- State after step 6. -/
theorem t6_eq : t6 = state_b0 6 8 (chain_of [97, 98, 99, 100, 101, 102]) := by
  show t6r.1 = _
  rw [t6r_eq]

/-- Growth chain, step 7: put("g") grows 8 → 16, giving (7, 16). -/
theorem t7r_eq : t7r = (state_b0 7 16 (chain_of [97, 98, 99, 100, 101, 102, 103]), D_Success) := by
  show croquette_put 20 t6 [103] 103 = _
  rw [t6_eq]
  rfl

/-- State after step 7. -/
theorem t7_eq : t7 = state_b0 7 16 (chain_of [97, 98, 99, 100, 101, 102, 103]) := by
  show t7r.1 = _
  rw [t7r_eq]

/-- C1 scenario: the table before the update — one entry "a" → 21, ownership
disabled, nothing released. -/
theorem c1_table_eq : c1_table =
    { croq := some
        { do_free := 0, size := 1, capacity := 2, base_capacity := 2,
          table := [[{ key := [97], value := 21 }], []],
          free_value_given := true, value_compare := value_sub },
      err := 0, released := [], crashed := false } := by rfl

/-- C1 scenario: the update put replaces the value and passes the old value
to free_value although ownership is disabled. -/
theorem c1_update_eq : c1_update =
    ({ croq := some
         { do_free := 0, size := 1, capacity := 2, base_capacity := 2,
           table := [[{ key := [97], value := 22 }], []],
           free_value_given := true, value_compare := value_sub },
       err := 0, released := [21], crashed := false }, D_Success) := by
  show croquette_put 20 c1_table [97] 22 = _
  rw [c1_table_eq]
  rfl

/-- The state component of the C1 update. -/
theorem c1_update_state_eq : c1_update.1 =
    { croq := some
        { do_free := 0, size := 1, capacity := 2, base_capacity := 2,
          table := [[{ key := [97], value := 22 }], []],
          free_value_given := true, value_compare := value_sub },
      err := 0, released := [21], crashed := false } := by
  rw [c1_update_eq]

/-- C1 scenario: a comparator-equal put leaves the entry and the release
trace untouched. -/
theorem c1_equal_eq : c1_equal =
    ({ croq := some
         { do_free := 0, size := 1, capacity := 2, base_capacity := 2,
           table := [[{ key := [97], value := 22 }], []],
           free_value_given := true, value_compare := value_sub },
       err := 0, released := [21], crashed := false }, D_Success) := by
  show croquette_put 20 c1_update.1 [97] 22 = _
  rw [c1_update_state_eq]
  rfl

/-- C1 crash variant: the table before the update, with free_value = NULL. -/
theorem c1_nofn_table_eq : c1_nofn_table =
    { croq := some
        { do_free := 0, size := 1, capacity := 2, base_capacity := 2,
          table := [[{ key := [97], value := 21 }], []],
          free_value_given := false, value_compare := value_sub },
      err := 0, released := [], crashed := false } := by rfl

/-- C1 crash variant: the update put calls the NULL free_value pointer
(undefined behaviour, flagged by `crashed`). -/
theorem c1_nofn_update_eq : c1_nofn_update =
    ({ croq := some
         { do_free := 0, size := 1, capacity := 2, base_capacity := 2,
           table := [[{ key := [97], value := 22 }], []],
           free_value_given := false, value_compare := value_sub },
       err := 0, released := [], crashed := true }, D_Success) := by
  show croquette_put 20 c1_nofn_table [97] 22 = _
  rw [c1_nofn_table_eq]
  rfl

/-- Long-key scenario: the freshly created capacity-4 table. -/
theorem u0_eq : u0 = ustate 0 [] := by rfl

set_option maxHeartbeats 4000000 in
set_option maxRecDepth 16000 in
/-- Long-key scenario: putting the 256-character key k1 succeeds and stores
the 255-character truncation of k1 (= kA) in bucket 1, the bucket of the
truncated key's hash — not the bucket of k1's own hash. -/
theorem u1r_eq : u1r = (ustate 1 [{ key := kA, value := 21 }], D_Success) := by
  show croquette_put 10 u0 k1 21 = _
  rw [u0_eq]
  rfl

/-- State after putting k1. -/
theorem u1_eq : u1 = ustate 1 [{ key := kA, value := 21 }] := by
  show u1r.1 = _
  rw [u1r_eq]

set_option maxHeartbeats 4000000 in
set_option maxRecDepth 16000 in
/-- Long-key scenario: putting k2 — which the key comparison considers the
same key as the stored one — misses it (croquette_find hashes the full,
untruncated k2 into bucket 3) and appends a second entry with the same
stored key kA. -/
theorem u2r_eq : u2r =
    (ustate 2 [{ key := kA, value := 21 }, { key := kA, value := 22 }], D_Success) := by
  show croquette_put 10 u1 k2 22 = _
  rw [u1_eq]
  rfl

/-- State after putting k2. -/
theorem u2_eq : u2 = ustate 2 [{ key := kA, value := 21 }, { key := kA, value := 22 }] := by
  show u2r.1 = _
  rw [u2r_eq]

/-- C2 scenario: the capacity-6 table holding "a", "b", "c" in buckets
2, 4, 0. -/
theorem c2_v3_eq : c2_v3 =
    state6 3 6 [[{ key := [99], value := 99 }], [], [{ key := [97], value := 97 }], [],
      [{ key := [98], value := 98 }], []] := by rfl

/-- C2 shrink decomposition: reinserting "c" into the fresh capacity-3
table (the first step of perform_rehash(3)'s walk). -/
theorem c2_step_c : free_entry (exec 18 (Req.put [99] 99) c2_e3).1 { key := [99], value := 0 }
    = c2_a1 := by rfl

/-- C2 shrink decomposition: reinserting "b" crosses the 75% threshold of
capacity 3, so this single put doubles the table right back to capacity 6. -/
theorem c2_step_b : free_entry (exec 18 (Req.put [98] 98) c2_a1).1 { key := [98], value := 0 }
    = c2_a2 := by rfl

/-- C2 shrink decomposition: perform_rehash(3) on the post-removal table
ends at capacity 6 — the shrink is immediately undone by the grow policy
re-evaluated during reinsertion. -/
theorem c2_perform_eq : exec 19 (Req.performRehash 3) c2_s1 = (c2_a2, D_Success) := by
  rw [show exec 19 (Req.performRehash 3) c2_s1 =
      (reinsert_all (exec 18)
        [[{ key := [99], value := 99 }], [], [], [], [{ key := [98], value := 98 }], []]
        c2_e3, D_Success) from rfl]
  rw [reinsert_all_cons, reinsert_chain_cons, c2_step_c, reinsert_chain_nil]
  rw [reinsert_all_nil_bucket, reinsert_all_nil_bucket, reinsert_all_nil_bucket]
  rw [reinsert_all_cons, reinsert_chain_cons, c2_step_b, reinsert_chain_nil]
  rw [reinsert_all_nil_bucket, reinsert_all_nil]

/-- C2 shrink decomposition: the D_Remove rehash on the post-removal table. -/
theorem c2_rehash_eq : exec 20 (Req.rehash D_Remove) c2_s1 = (c2_a2, D_Success) := by
  rw [show exec 20 (Req.rehash D_Remove) c2_s1 =
      (if (exec 19 (Req.performRehash 3) c2_s1).2 = D_Error
       then ((exec 19 (Req.performRehash 3) c2_s1).1, D_Error)
       else ((exec 19 (Req.performRehash 3) c2_s1).1, D_Success)) from rfl]
  rw [c2_perform_eq]
  rfl

/-- C2: the removal of "a" from the size-3 capacity-6 table: size drops to
2 < (6 >> 1), the shrink to capacity 3 is attempted, and the final capacity
is 6 again. -/
theorem c2_removed_eq : c2_removed = (c2_a2, D_Success) := by
  show croquette_remove 20 c2_v3 [97] = _
  rw [c2_v3_eq]
  rw [show croquette_remove 20 (state6 3 6 [[{ key := [99], value := 99 }], [],
        [{ key := [97], value := 97 }], [], [{ key := [98], value := 98 }], []]) [97] =
      (if (exec 20 (Req.rehash D_Remove) c2_s1).2 = D_Error
       then ((exec 20 (Req.rehash D_Remove) c2_s1).1, D_Error)
       else ((exec 20 (Req.rehash D_Remove) c2_s1).1, D_Success)) from rfl]
  rw [c2_rehash_eq]
  rfl

/-- C2 positive example: removing "a" from the size-5 capacity-8 table
leaves (4, 8) — no shrink, since 4 is not below (8 >> 1). -/
theorem c2_p1_eq : c2_p1 = (state8 4 8 (chain_of [98, 99, 100, 101]), D_Success) := by rfl

/-- C2 positive example: removing "b" leaves size 3 < (8 >> 1), and the
shrink to capacity 4 sticks, giving (3, 4) exactly as the claim's example
says. -/
theorem c2_p2_eq : c2_p2 = (state8 3 4 (chain_of [99, 100, 101]), D_Success) := by
  show croquette_remove 20 c2_p1.1 [98] = _
  rw [show c2_p1.1 = state8 4 8 (chain_of [98, 99, 100, 101]) from by rw [c2_p1_eq]]
  rfl

/-!
The claim theorems.
-/

/-- Claim C10: for every integer error code e — including codes outside the
valid range [0, Num_Errors] — croquette_set_error followed by
croquette_get_error returns exactly e: the range check's clamping write is
unconditionally overwritten by the raw store, so the last-error slot keeps
any code verbatim. -/
theorem claim_C10_error_slot_verbatim :
    ∀ (e : Int) (g : GState), croquette_get_error (croquette_set_error e g) = e :=
  fun _ _ => rfl

/-- Claim C7: with no table (croquette == NULL), every query and mutation
operation — isEmpty, size, capacity, containsKey, get, put, remove, clear —
fails with the Uninitialized error, and the only state change is the
last-error slot (the table stays absent, the release trace and crash flag
are untouched); put/remove/clear return D_Error and get returns NULL. -/
theorem claim_C7_uninitialized_operations_fail :
    ∀ (g : GState) (fuel : Nat) (key : List Nat) (value : Int),
      g.croq = none →
      croquette_isEmpty g = ({ g with err := D_Uninitialized }, D_Error) ∧
      croquette_size g = ({ g with err := D_Uninitialized }, D_Error) ∧
      croquette_capacity g = ({ g with err := D_Uninitialized }, D_Error) ∧
      croquette_containsKey g key = ({ g with err := D_Uninitialized }, D_Error) ∧
      croquette_get g key = ({ g with err := D_Uninitialized }, 0) ∧
      croquette_put (fuel + 1) g key value = ({ g with err := D_Uninitialized }, D_Error) ∧
      croquette_remove fuel g key = ({ g with err := D_Uninitialized }, D_Error) ∧
      croquette_clear fuel g = ({ g with err := D_Uninitialized }, D_Error) := by
  intro g fuel key value h
  obtain ⟨cq, e, r, x⟩ := g
  cases cq with
  | some c => exact Option.noConfusion h
  | none => exact ⟨rfl, rfl, rfl, rfl, rfl, rfl, rfl, rfl⟩

/-- Claim C7 witness: the operations at the program's initial state. -/
theorem claim_C7_witness :
    initial_gstate.croq = none ∧
    (croquette_isEmpty initial_gstate = ({ initial_gstate with err := D_Uninitialized }, D_Error) ∧
     croquette_size initial_gstate = ({ initial_gstate with err := D_Uninitialized }, D_Error) ∧
     croquette_capacity initial_gstate = ({ initial_gstate with err := D_Uninitialized }, D_Error) ∧
     croquette_containsKey initial_gstate [97] = ({ initial_gstate with err := D_Uninitialized }, D_Error) ∧
     croquette_get initial_gstate [97] = ({ initial_gstate with err := D_Uninitialized }, 0) ∧
     croquette_put 8 initial_gstate [97] 5 = ({ initial_gstate with err := D_Uninitialized }, D_Error) ∧
     croquette_remove 7 initial_gstate [97] = ({ initial_gstate with err := D_Uninitialized }, D_Error) ∧
     croquette_clear 7 initial_gstate = ({ initial_gstate with err := D_Uninitialized }, D_Error)) :=
  ⟨rfl, claim_C7_uninitialized_operations_fail initial_gstate 7 [97] 5 rfl⟩

/-- Claim C9: the internal chain-insert bounds check is off by one.  Indices
below 0 or above capacity are rejected with InvalidIndex, but
index = capacity — one past the last bucket, which the claim says must be
rejected — passes the check `index < 0 || index > croquette->capacity`: the
call returns D_Success with no error code set, and the write
`croquette->table[index]` is past the end of the bucket vector (undefined
behaviour, `crashed` in the model). -/
theorem claim_C9_insert_index_off_by_one :
    (c9_state.croq.map fun c => c.capacity) = some 1 ∧
    insert_at_index c9_state 1 c9_entry =
      ({ croq := some
           { do_free := 0, size := 1, capacity := 1, base_capacity := 1,
             table := [[]], free_value_given := true, value_compare := value_sub },
         err := D_No_Error, released := [], crashed := true }, D_Success) ∧
    D_No_Error ≠ D_Invalid_Index ∧
    (insert_at_index c9_state 2 c9_entry).1.err = D_Invalid_Index ∧
    (insert_at_index c9_state 2 c9_entry).2 = D_Error ∧
    (insert_at_index c9_state (-1) c9_entry).1.err = D_Invalid_Index ∧
    (insert_at_index c9_state (-1) c9_entry).2 = D_Error :=
  ⟨rfl, rfl, by decide, rfl, rfl, rfl, rfl⟩

/-- Claim C1: on the update path of croquette_put, the source calls
`croquette->free_value(entry->value)` without consulting do_free.  With
ownership disabled (do_free = NoFree) and a non-NULL free_value, the old
value 21 is released anyway; with free_value = NULL — exactly what
croquette_create's documentation tells callers to pass when ownership is
disabled — the same update calls a NULL function pointer.  The rest of the
claim's update contract does hold: a different value replaces the stored
value and succeeds without changing size or capacity, and a
comparator-equal put leaves the entry untouched. -/
theorem claim_C1_update_path_ignores_ownership :
    (c1_table.croq.map fun c => c.do_free) = some Croquette_NoFree_Value ∧
    c1_table.released = [] ∧
    (c1_table.croq.map fun c => (c.size, c.capacity)) = some (1, 2) ∧
    c1_update.2 = D_Success ∧
    (croquette_get c1_update.1 [97]).2 = 22 ∧
    (c1_update.1.croq.map fun c => (c.size, c.capacity)) = some (1, 2) ∧
    c1_update.1.released = [21] ∧
    c1_update.1.crashed = false ∧
    c1_equal.2 = D_Success ∧
    (croquette_get c1_equal.1 [97]).2 = 22 ∧
    c1_equal.1.released = [21] ∧
    c1_nofn_update.1.crashed = true := by
  rw [c1_table_eq, c1_update_eq, c1_equal_eq, c1_nofn_update_eq]
  exact ⟨rfl, rfl, rfl, rfl, rfl, rfl, rfl, rfl, rfl, rfl, rfl, rfl⟩

/-- Claim C3: starting from a table created with capacity 1, seven
successful puts of distinct absent keys produce exactly the
(size, capacity) sequence (1,2), (2,4), (3,4), (4,8), (5,8), (6,8), (7,16);
along this trace the capacity doubles after an insert exactly when
size > (capacity >> 1) + (capacity >> 2) or size ≥ capacity (size the
post-insert count, capacity the pre-insert capacity). -/
theorem claim_C3_growth_sequence :
    ([t0, t1, t2, t3, t4, t5, t6, t7].map fun g => g.croq.map fun c => (c.size, c.capacity)) =
      [some (0, 1), some (1, 2), some (2, 4), some (3, 4), some (4, 8), some (5, 8),
        some (6, 8), some (7, 16)] ∧
    [t1r.2, t2r.2, t3r.2, t4r.2, t5r.2, t6r.2, t7r.2] = List.replicate 7 D_Success ∧
    (∀ pq ∈ [(((0 : Int), (1 : Int)), ((1 : Int), (2 : Int))), ((1, 2), (2, 4)),
        ((2, 4), (3, 4)), ((3, 4), (4, 8)), ((4, 8), (5, 8)), ((5, 8), (6, 8)),
        ((6, 8), (7, 16))],
      (pq.2.2 = 2 * pq.1.2 ↔ (pq.2.1 > pq.1.2 / 2 + pq.1.2 / 4 ∨ pq.2.1 ≥ pq.1.2))) := by
  rw [List.map, List.map, List.map, List.map, List.map, List.map, List.map, List.map,
    t0_eq, t1_eq, t2_eq, t3_eq, t4_eq, t5_eq, t6_eq, t7_eq,
    t1r_eq, t2r_eq, t3r_eq, t4r_eq, t5r_eq, t6r_eq, t7r_eq]
  exact ⟨rfl, rfl, by decide⟩

/-- Claim C2: the shrink policy does trigger after the removal (the
post-removal size 2 is below 6 >> 1 = 3), but the capacity does not become
capacity >> 1: perform_rehash(3) reinserts the surviving entries through
croquette_put, which re-evaluates the grow policy mid-rehash and doubles
straight back, leaving capacity 6.  The claim's own concrete example
(size 5, capacity 8, removing down to size 3) does end at capacity 4,
because there the halved capacity absorbs the reinsertions without crossing
the grow threshold. -/
theorem claim_C2_shrink_undone_by_regrowth :
    (c2_v3.croq.map fun c => (c.size, c.capacity)) = some (3, 6) ∧
    c2_removed.2 = D_Success ∧
    (c2_removed.1.croq.map fun c => (c.size, c.capacity)) = some (2, 6) ∧
    ((2 : Int) < 6 / 2) ∧
    ¬((6 : Int) = 6 / 2) ∧
    c2_removed.1.crashed = false ∧
    c2_p1.2 = D_Success ∧
    (c2_p1.1.croq.map fun c => (c.size, c.capacity)) = some (4, 8) ∧
    c2_p2.2 = D_Success ∧
    (c2_p2.1.croq.map fun c => (c.size, c.capacity)) = some (3, 4) := by
  rw [c2_v3_eq, c2_removed_eq, c2_p1_eq, c2_p2_eq]
  exact ⟨rfl, rfl, rfl, by decide, by decide, rfl, rfl, rfl, rfl, rfl⟩

set_option maxHeartbeats 4000000 in
set_option maxRecDepth 16000 in
/-- Claim C6: keys are truncated to MAX_KEY_SIZE characters for storage and
for the key comparison, but NOT for hashing: croquette_find hashes the full,
untruncated probe key while croquette_put inserted the entry at the bucket
of the truncated stored key.  For the 256-character keys k1 and k2 (which
agree on their first 255 characters), the stored key is the truncation kA,
the three keys select three different buckets (2, 3 and 1) of the
capacity-4 table, and a containsKey lookup of either key — including the
very key that was just successfully put — finds nothing. -/
theorem claim_C6_truncation_skips_hashing :
    k1.take MAX_KEY_SIZE = k2.take MAX_KEY_SIZE ∧
    u1r.2 = D_Success ∧
    (u1.croq.map fun c => (c.size, c.capacity)) = some (1, 4) ∧
    (u1.croq.map fun c => c.table.flatten.map fun e => e.key) = some [kA] ∧
    (get_index u1 k1).2 = 2 ∧
    (get_index u1 k2).2 = 3 ∧
    (get_index u1 kA).2 = 1 ∧
    (croquette_containsKey u1 k2).2 = 0 ∧
    (croquette_containsKey u1 k1).2 = 0 ∧
    u1.crashed = false := by
  rw [u1r_eq, u1_eq]
  exact ⟨by decide, rfl, rfl, rfl, rfl, rfl, rfl, rfl, rfl, rfl⟩

set_option maxHeartbeats 4000000 in
set_option maxRecDepth 16000 in
/-- Claim C8: putting k2 — a key the table's own key comparison (is_key)
considers identical to the stored key — does not update in place: because
the lookup hashes the untruncated k2 while the entry lives at the truncated
key's bucket, croquette_find misses and croquette_put appends a second
entry whose stored (truncated) key equals the first one.  The table ends
with two live entries carrying the same key kA, so key uniqueness — and
with it the "update in place rather than a second entry" invariant — is
violated; size still counts both entries and the capacity is unchanged. -/
theorem claim_C8_duplicate_entry_for_same_key :
    k2.take MAX_KEY_SIZE = k1.take MAX_KEY_SIZE ∧
    is_key { key := kA, value := 21 } k2 = true ∧
    u2r.2 = D_Success ∧
    (u2.croq.map fun c => (c.size, c.capacity)) = some (2, 4) ∧
    (u2.croq.map fun c => c.table.flatten.map fun e => (e.key, e.value)) =
      some [(kA, 21), (kA, 22)] ∧
    u2.crashed = false := by
  rw [u2r_eq, u2_eq]
  exact ⟨by decide, by decide, rfl, rfl, rfl, rfl⟩

/-- croquette_set_error only writes the error slot. -/
theorem croquette_set_error_croq (e : Int) (g : GState) :
    (croquette_set_error e g).croq = g.croq := by
  unfold croquette_set_error
  split <;> rfl

/-- The hash loop, related to the spec's accumulation: folding the loop body
over the remaining index range `i .. size-1` computes the spec accumulation
over the remaining characters, for keys of at least two characters. -/
theorem hash_code_loop_eq_spec_go (key : List Nat) :
    ∀ (rem i : Nat) (acc : Int), 2 ≤ key.length → i + rem = key.length → i < key.length →
      List.foldl
        (fun code j =>
          let code1 := code + (key.getD j 0 : Int)
          if key.length = 1 ∨ j < key.length - 1 then code1 * 128 else code1)
        acc (List.range' i rem) = spec_hash_go acc (key.drop i) := by
  intro rem
  induction rem with
  | zero => intro i acc _ hsum hi; omega
  | succ rem ih =>
    intro i acc h2 hsum hi
    rw [List.range'_succ, List.foldl_cons, List.drop_eq_getElem_cons hi]
    by_cases hlast : i < key.length - 1
    · have hi1 : i + 1 < key.length := by omega
      rw [List.drop_eq_getElem_cons hi1]
      simp only [spec_hash_go]
      rw [← List.drop_eq_getElem_cons hi1]
      rw [if_pos (Or.inr hlast), List.getD_eq_getElem key 0 hi]
      exact ih (i + 1) ((acc + (key[i] : Int)) * 128) h2 (by omega) hi1
    · have hrem : rem = 0 := by omega
      subst hrem
      have hi1 : key.length ≤ i + 1 := by omega
      rw [List.drop_eq_nil_of_le hi1]
      simp only [spec_hash_go, List.range'_zero, List.foldl_nil]
      simp only [List.getD_eq_getElem key 0 hi]
      rw [if_neg (by omega)]

/-- hash_code computes exactly the spec's accumulation on every nonempty
key. -/
theorem hash_code_eq_spec_hash : ∀ (key : List Nat), key ≠ [] → hash_code key = spec_hash key := by
  intro key hk
  match key, hk with
  | [c], _ =>
    show hash_code [c] = spec_hash [c]
    simp [hash_code, spec_hash, List.range_succ]
  | c1 :: c2 :: rest, _ =>
    have h2 : 2 ≤ (c1 :: c2 :: rest).length := by
      simp only [List.length_cons]
      omega
    show hash_code (c1 :: c2 :: rest) = spec_hash (c1 :: c2 :: rest)
    rw [hash_code]
    rw [List.range_eq_range']
    rw [hash_code_loop_eq_spec_go (c1 :: c2 :: rest) (c1 :: c2 :: rest).length 0 0 h2
      (by omega) (by simp only [List.length_cons]; omega)]
    rw [List.drop_zero]
    simp only [spec_hash]

/-- The hash is nonnegative (character ordinals are nonnegative). -/
theorem hash_code_nonneg (key : List Nat) : 0 ≤ hash_code key := by
  have H : ∀ (l : List Nat) (acc : Int), 0 ≤ acc →
      0 ≤ List.foldl
        (fun code j =>
          let code1 := code + (key.getD j 0 : Int)
          if key.length = 1 ∨ j < key.length - 1 then code1 * 128 else code1)
        acc l := by
    intro l
    induction l with
    | nil =>
      intro acc h
      simpa using h
    | cons a l ih =>
      intro acc h
      rw [List.foldl_cons]
      apply ih
      have hx : (0 : Int) ≤ (key.getD a 0 : Int) := Int.natCast_nonneg _
      dsimp only
      split
      · have : (0 : Int) ≤ acc + (key.getD a 0 : Int) := by omega
        exact mul_nonneg this (by norm_num)
      · omega
  simpa [hash_code] using H (List.range key.length) 0 le_rfl

/-- On a live table and a nonempty key, get_index returns
`hash_code(key) % capacity` (C's truncating remainder). -/
theorem get_index_val (g : GState) (c : Croquette_s) (key : List Nat)
    (hc : g.croq = some c) (hk : key ≠ []) :
    (get_index g key).2 = Int.tmod (hash_code key) c.capacity := by
  obtain ⟨cq, e, r, x⟩ := g
  obtain rfl : cq = some c := hc
  have h1 : get_index ⟨some c, e, r, x⟩ key =
      if key = [] then
        (croquette_set_error D_Invalid_Key (croquette_set_error D_No_Error ⟨some c, e, r, x⟩),
          D_General_Error)
      else
        (croquette_set_error D_No_Error ⟨some c, e, r, x⟩,
          Int.tmod (hash_code key) c.capacity) := rfl
  rw [h1, if_neg hk]

/-- Claim C5: for every nonempty key, hash_code equals the spec's
accumulation (each character's ordinal added to a running total, shifted
left 7 bits after every character except the last, with a single-character
key still shifted once), and on a live table the bucket index returned by
get_index is that hash modulo the current capacity. -/
theorem claim_C5_hash_accumulation_and_bucket :
    ∀ (key : List Nat) (g : GState) (c : Croquette_s),
      key ≠ [] → g.croq = some c → 0 < c.capacity →
      hash_code key = spec_hash key ∧
      (get_index g key).2 = spec_hash key % c.capacity := by
  intro key g c hk hc hcap
  refine ⟨hash_code_eq_spec_hash key hk, ?_⟩
  rw [get_index_val g c key hc hk]
  rw [Int.tmod_eq_emod (hash_code_nonneg key) (le_of_lt hcap)]
  rw [hash_code_eq_spec_hash key hk]

/-- Claim C5 witness: the key "ab" on a live capacity-3 table. -/
theorem claim_C5_witness :
    (([97, 98] : List Nat) ≠ [] ∧ (0 : Int) < 3) ∧
    (hash_code [97, 98] = spec_hash [97, 98] ∧
     (get_index c5_state [97, 98]).2 = spec_hash [97, 98] % 3) :=
  ⟨⟨by decide, by decide⟩,
   claim_C5_hash_accumulation_and_bucket [97, 98] c5_state
     { do_free := 0, size := 0, capacity := 3, base_capacity := 3,
       table := [[], [], []], free_value_given := true, value_compare := value_sub }
     (by decide) rfl (by decide)⟩

/-- Writing a bucket, described through getD: the written index takes the new
chain (when in range), every other index is untouched. -/
theorem getD_set (t : List (List Carrier)) :
    ∀ (idx i : Nat) (v : List Carrier),
      (t.set idx v).getD i ([] : List Carrier) =
        if idx = i ∧ idx < t.length then v else t.getD i [] := by
  induction t with
  | nil =>
    intro idx i v
    simp
  | cons a t ih =>
    intro idx i v
    cases idx with
    | zero =>
      cases i with
      | zero => simp
      | succ i => simp
    | succ idx =>
      cases i with
      | zero => simp
      | succ i =>
        simp only [List.set_cons_succ, List.getD_cons_succ, List.length_cons]
        rw [ih idx i v]
        by_cases h : idx = i ∧ idx < t.length
        · rw [if_pos h, if_pos (by omega)]
        · rw [if_neg h, if_neg (by omega)]

/-- get_index on a live table, fully unfolded. -/
theorem get_index_some (c : Croquette_s) (e : Int) (r : List Int) (x : Bool)
    (key : List Nat) :
    get_index ⟨some c, e, r, x⟩ key =
      if key = [] then
        (croquette_set_error D_Invalid_Key
          (croquette_set_error D_No_Error ⟨some c, e, r, x⟩), D_General_Error)
      else
        (croquette_set_error D_No_Error ⟨some c, e, r, x⟩,
          Int.tmod (hash_code key) c.capacity) := rfl

/-- get_index only writes the error slot of the state it returns. -/
theorem get_index_croq (g : GState) (key : List Nat) :
    (get_index g key).1.croq = g.croq := by
  obtain ⟨cq, e, r, x⟩ := g
  cases cq with
  | none => rfl
  | some c =>
    rw [get_index_some]
    by_cases hk : key = []
    · rw [if_pos hk]
      rfl
    · rw [if_neg hk]
      rfl

/-- free_entry never changes the croquette pointer (it only frees the value
and records the release, or flags the NULL-pointer call). -/
theorem free_entry_croq (g : GState) (entry : Carrier) :
    (free_entry g entry).croq = g.croq := by
  unfold free_entry free_value_call
  obtain ⟨cq, e, r, x⟩ := g
  cases cq with
  | none => rfl
  | some c =>
    dsimp only
    split
    · split <;> rfl
    · rfl

/-- remove_entry on a live table: the croquette stays live, capacity,
base_capacity and the bucket count are untouched, and a bucket that was
already empty stays empty (unlinking never adds a node). -/
theorem remove_entry_pres (g : GState) (c : Croquette_s) (entry : Carrier)
    (hc : g.croq = some c) :
    ∃ c', (remove_entry g entry).1.croq = some c' ∧
      c'.capacity = c.capacity ∧ c'.base_capacity = c.base_capacity ∧
      c'.table.length = c.table.length ∧
      (∀ i : Nat, c.table.getD i [] = [] → c'.table.getD i [] = []) := by
  have hcroq : (get_index (croquette_set_error D_No_Error g) entry.key).1.croq = some c := by
    rw [get_index_croq, croquette_set_error_croq, hc]
  unfold remove_entry
  dsimp only
  split
  · rename_i heq
    rw [hcroq] at heq
    exact Option.noConfusion heq
  · rename_i cm heq
    rw [hcroq] at heq
    cases Option.some.inj heq
    split
    · rename_i heq2
      rw [free_entry_croq] at heq2
      dsimp only at heq2
      exact Option.noConfusion heq2
    · rename_i c2 heq2
      rw [free_entry_croq] at heq2
      dsimp only at heq2
      cases Option.some.inj heq2
      refine ⟨_, rfl, rfl, rfl, ?_, ?_⟩
      · simp
      · intro i h
        dsimp only
        rw [getD_set]
        split
        · rename_i hcnd
          rw [hcnd.1, h]
          rfl
        · exact h

/-- Clearing one chain (a run of remove_entry calls over a chain snapshot)
keeps the croquette live and preserves capacity, base_capacity, the bucket
count, and bucket emptiness. -/
theorem clear_chain_pres (chain : List Carrier) :
    ∀ (g : GState) (c : Croquette_s), g.croq = some c →
      ∃ c', (clear_chain g chain).croq = some c' ∧
        c'.capacity = c.capacity ∧ c'.base_capacity = c.base_capacity ∧
        c'.table.length = c.table.length ∧
        (∀ i : Nat, c.table.getD i [] = [] → c'.table.getD i [] = []) := by
  induction chain with
  | nil =>
    intro g c hc
    exact ⟨c, hc, rfl, rfl, rfl, fun i h => h⟩
  | cons entry rest ih =>
    intro g c hc
    obtain ⟨c1, h1, hcap1, hbase1, hlen1, hpres1⟩ := remove_entry_pres g c entry hc
    obtain ⟨c2, h2, hcap2, hbase2, hlen2, hpres2⟩ := ih (remove_entry g entry).1 c1 h1
    refine ⟨c2, h2, hcap2.trans hcap1, hbase2.trans hbase1, hlen2.trans hlen1, ?_⟩
    intro i h
    exact hpres2 i (hpres1 i h)

/-- The bucket-clearing loop of croquette_clear: the croquette stays live,
capacity, base_capacity and the bucket count are preserved, previously empty
buckets stay empty, and every bucket whose index the loop visited is empty
afterwards. -/
theorem clear_buckets_pres (indices : List Nat) :
    ∀ (g : GState) (c : Croquette_s), g.croq = some c →
      ∃ c', (clear_buckets g indices).croq = some c' ∧
        c'.capacity = c.capacity ∧ c'.base_capacity = c.base_capacity ∧
        c'.table.length = c.table.length ∧
        (∀ i : Nat, c.table.getD i [] = [] → c'.table.getD i [] = []) ∧
        (∀ i ∈ indices, c'.table.getD i [] = []) := by
  induction indices with
  | nil =>
    intro g c hc
    exact ⟨c, hc, rfl, rfl, rfl, fun i h => h, by simp⟩
  | cons i0 rest ih =>
    intro g c hc
    obtain ⟨cq, e, r, x⟩ := g
    obtain rfl : cq = some c := hc
    obtain ⟨c1, h1, hcap1, hbase1, hlen1, hpres1⟩ :=
      clear_chain_pres (c.table.getD i0 []) ⟨some c, e, r, x⟩ c rfl
    rw [show clear_buckets (⟨some c, e, r, x⟩ : GState) (i0 :: rest) =
        clear_buckets
          (match (clear_chain (⟨some c, e, r, x⟩ : GState) (c.table.getD i0 [])).croq with
           | none => clear_chain (⟨some c, e, r, x⟩ : GState) (c.table.getD i0 [])
           | some c2 => { clear_chain (⟨some c, e, r, x⟩ : GState) (c.table.getD i0 []) with
               croq := some { c2 with table := c2.table.set i0 [] } }) rest from rfl]
    generalize hG : clear_chain (⟨some c, e, r, x⟩ : GState) (c.table.getD i0 []) = G1 at h1 ⊢
    obtain ⟨cq1, e1, r1, x1⟩ := G1
    obtain rfl : cq1 = some c1 := h1
    obtain ⟨c2, h2, hcap2, hbase2, hlen2, hpres2, hproc2⟩ :=
      ih ⟨some { c1 with table := c1.table.set i0 [] }, e1, r1, x1⟩
        { c1 with table := c1.table.set i0 [] } rfl
    refine ⟨c2, h2, ?_, ?_, ?_, ?_, ?_⟩
    · exact hcap2.trans hcap1
    · exact hbase2.trans hbase1
    · rw [hlen2]
      dsimp only
      rw [List.length_set]
      exact hlen1
    · intro i h
      apply hpres2
      dsimp only
      rw [getD_set]
      split
      · rfl
      · exact hpres1 i h
    · intro i hi
      rcases List.mem_cons.mp hi with rfl | hi'
      · apply hpres2
        dsimp only
        rw [getD_set]
        split
        · rfl
        · rename_i hcnd
          exact List.getD_eq_default _ _ (by omega)
      · exact hproc2 i hi'

/-- Reinserting an old bucket vector all of whose chains are empty does
nothing at all (and in particular calls nothing through the core). -/
theorem reinsert_all_id_of_empty (next : Req → GState → GState × Int) :
    ∀ (t : List (List Carrier)) (g : GState),
      (∀ ch ∈ t, ch = ([] : List Carrier)) → reinsert_all next t g = g := by
  intro t
  induction t with
  | nil => intro g _; rfl
  | cons ch rest ih =>
    intro g h
    have hch : ch = [] := h ch (List.mem_cons_self ch rest)
    subst hch
    rw [reinsert_all_nil_bucket]
    exact ih g fun ch2 hm => h ch2 (List.mem_cons_of_mem _ hm)

/-- Claim C4: on every live table whose bucket vector matches its capacity
and whose recorded base capacity is positive, croquette_clear leaves the
croquette live with size 0, capacity equal to base_capacity, base_capacity
unchanged, an entry-free bucket vector of base_capacity empty buckets, and
returns D_Success — regardless of how the table was grown or shrunk
meanwhile. -/
theorem claim_C4_clear_resets_to_base (fuel : Nat) (g : GState) (c : Croquette_s)
    (hc : g.croq = some c) (hlen : c.table.length = c.capacity.toNat)
    (hbase : 0 < c.base_capacity) :
    ∃ c2 : Croquette_s,
      (croquette_clear (fuel + 1) g).1.croq = some c2 ∧
      c2.size = 0 ∧
      c2.capacity = c.base_capacity ∧
      c2.base_capacity = c.base_capacity ∧
      c2.table = List.replicate c.base_capacity.toNat [] ∧
      (croquette_clear (fuel + 1) g).2 = D_Success := by
  obtain ⟨cq, e, r, x⟩ := g
  obtain rfl : cq = some c := hc
  obtain ⟨c1, h1, hcap1, hbase1, hlen1, hpres1, hproc1⟩ :=
    clear_buckets_pres (List.range c.capacity.toNat) ⟨some c, D_No_Error, r, x⟩ c rfl
  rw [show croquette_clear (fuel + 1) ⟨some c, e, r, x⟩ =
      (match (clear_buckets (⟨some c, D_No_Error, r, x⟩ : GState)
          (List.range c.capacity.toNat)).croq with
       | none => ({ clear_buckets (⟨some c, D_No_Error, r, x⟩ : GState)
             (List.range c.capacity.toNat) with crashed := true }, D_Error)
       | some c2 => perform_rehash (fuel + 1)
           (clear_buckets (⟨some c, D_No_Error, r, x⟩ : GState)
             (List.range c.capacity.toNat)) c2.base_capacity) from rfl]
  generalize hG : clear_buckets (⟨some c, D_No_Error, r, x⟩ : GState)
    (List.range c.capacity.toNat) = G1 at h1 ⊢
  obtain ⟨cq1, e1, r1, x1⟩ := G1
  obtain rfl : cq1 = some c1 := h1
  have hb1 : ¬ (c1.base_capacity ≤ 0) := by
    rw [hbase1]
    omega
  dsimp only
  rw [show perform_rehash (fuel + 1) (⟨some c1, e1, r1, x1⟩ : GState) c1.base_capacity =
      (if c1.base_capacity ≤ 0 then
        (croquette_set_error D_Invalid_Capacity ⟨some c1, D_No_Error, r1, x1⟩, D_Error)
      else
        (reinsert_all (exec fuel) c1.table
          ⟨some
            { c1 with
              table := List.replicate c1.base_capacity.toNat [],
              capacity := c1.base_capacity,
              size := 0 },
            D_No_Error, r1, x1⟩,
         D_Success)) from rfl]
  rw [if_neg hb1]
  have hempty : ∀ ch ∈ c1.table, ch = ([] : List Carrier) := by
    intro ch hm
    obtain ⟨i, hi, hEq⟩ := List.getElem_of_mem hm
    have hi2 : i < c.capacity.toNat := by
      rw [hlen1, hlen] at hi
      exact hi
    have hgd := hproc1 i (List.mem_range.mpr hi2)
    rw [List.getD_eq_getElem c1.table ([]) hi, hEq] at hgd
    exact hgd
  rw [reinsert_all_id_of_empty (exec fuel) c1.table _ hempty]
  refine
    ⟨{ c1 with
       table := List.replicate c1.base_capacity.toNat [],
       capacity := c1.base_capacity,
       size := 0 },
     rfl, rfl, ?_, ?_, ?_, rfl⟩
  · exact hbase1
  · exact hbase1
  · show List.replicate c1.base_capacity.toNat ([] : List Carrier) = _
    rw [hbase1]

/-- Claim C4 witness: a capacity-2 table holding one entry, created from base
capacity 1; clearing it empties it and brings the capacity back to 1. -/
theorem claim_C4_witness :
    ((0 : Int) < 1) ∧
    (∃ c2 : Croquette_s,
      (croquette_clear 3 c4w_state).1.croq = some c2 ∧
      c2.size = 0 ∧
      c2.capacity = 1 ∧
      c2.base_capacity = 1 ∧
      c2.table = List.replicate 1 [] ∧
      (croquette_clear 3 c4w_state).2 = D_Success) :=
  ⟨by decide,
   claim_C4_clear_resets_to_base 2 c4w_state
     { do_free := 0, size := 1, capacity := 2, base_capacity := 1,
       table := chain_of [97] :: List.replicate 1 [],
       free_value_given := true, value_compare := value_sub }
     rfl rfl (by decide)⟩

end Croquette
